import Mathlib

/-
Verification of the BC COVID-19 survey-data cleaning pipeline
(file: boston/Most Recent Data - Released 5.10.2022 (Recommended)/µ11f_COVID19_Format_Clean.py).

Shallow embedding conventions:
* pandas Timedelta clock times are rational hours; a missing value (NaT / NaN)
  is modelled as `none : Option ℚ`.  Elementwise pandas comparisons with a
  missing value are False, which the `match` defaults below reproduce.
* pandas Series operations are modelled row-wise: every operation in the
  sources embedded below is elementwise, so one row carries all the
  information.
* a raised ValueError or a failed assert is modelled by `Except.error`.
-/

namespace Covid19Clean

/-- A pandas clock-time value is accepted when it is missing or lies between
00:00 and 24:00 inclusive (`between(pd.Timedelta(0), pd.Timedelta(24, unit=..))`). -/
def validClock : Option ℚ → Bool
  | none => true
  | some x => decide (0 ≤ x) && decide (x ≤ 24)

/-- Source lines `st = awake_time - bed_time; st[st<0] += 24` of
`calc_sleep_time`: the naive 24-hour-cycle duration. -/
def naiveDur (b a : ℚ) : ℚ := if a - b < 0 then a - b + 24 else a - b

/-- The 12-hour-clock correction mask of `calc_sleep_time`
(`(awake_time < bed_time) & (awake_time < 13h) & (bed_time < 13h)
& (awake_time >= 1h) & (bed_time >= 1h)`). -/
def corr12Mask (correct_12 : Bool) (b a : ℚ) : Prop :=
  correct_12 = true ∧ a < b ∧ a < 13 ∧ b < 13 ∧ 1 ≤ a ∧ 1 ≤ b

instance (c : Bool) (b a : ℚ) : Decidable (corr12Mask c b a) := by
  unfold corr12Mask; infer_instance

/-- Sleep time after the `st[idx] += -12` correction of `calc_sleep_time`. -/
def effDur (correct_12 : Bool) (b a : ℚ) : ℚ :=
  if corr12Mask correct_12 b a then naiveDur b a - 12 else naiveDur b a

/-- The corr12 flag value of a row: the Python code creates the corr12 series
with NaN entries (`pd.Series(index=st.index, dtype=int)` produces a float64
series of NaN under pandas 1.x because NaN cannot live in an int64 series)
and sets the entries of the mask to 1. -/
def corrFlag (correct_12 : Bool) (b a : ℚ) : Option ℚ :=
  if corr12Mask correct_12 b a then some 1 else none

/-- The ambiguity-floor mask of `calc_sleep_time` (`(st < min_12)` and the
four window conditions), applied to the corrected sleep time. -/
def floorMask (min_12 st : ℚ) (b a : ℚ) : Prop :=
  min_12 ≠ 0 ∧ st < min_12 ∧ a < 13 ∧ b < 13 ∧ 1 ≤ a ∧ 1 ≤ b

instance (m st b a : ℚ) : Decidable (floorMask m st b a) := by
  unfold floorMask; infer_instance

/-- Embedding of `calc_sleep_time` (µ11f_COVID19_Format_Clean.py, lines
87-130), one row at a time.  Returns the pair (sleep time, corr12 flag
value); the Python function returns the corr12 series only when `correct_12`
is true, and its entries are NaN (here `none`) except at mask rows, where
they are 1.  The errors model the two ValueError checks and
`assert all(st.between(0, 24) | st.isna())`; `min_12 ≠ 0` models the
truthiness test `if min_12:`. -/
def calc_sleep_time (bed_time awake_time : Option ℚ) (correct_12 : Bool) (min_12 : ℚ) :
    Except String (Option ℚ × Option ℚ) :=
  if ¬ validClock bed_time then
    Except.error "All bed times must be between 00:00 and 23:59"
  else if ¬ validClock awake_time then
    Except.error "All awake times must be between 00:00 and 23:59"
  else
    match bed_time, awake_time with
    | some b, some a =>
      if ¬ (0 ≤ effDur correct_12 b a ∧ effDur correct_12 b a ≤ 24) then
        Except.error "AssertionError: sleep time must be between 0 and 24"
      else if floorMask min_12 (effDur correct_12 b a) b a then
        Except.ok (none, corrFlag correct_12 b a)
      else
        Except.ok (some (effDur correct_12 b a), corrFlag correct_12 b a)
    | _, _ =>
      -- a missing endpoint gives NaN sleep time; every mask is False at such
      -- a row, the assert is vacuous there, and the flag entry stays NaN
      Except.ok (none, none)

lemma naiveDur_nonneg {b a : ℚ} (hb1 : b ≤ 24) (ha0 : 0 ≤ a) : 0 ≤ naiveDur b a := by
  unfold naiveDur
  split <;> linarith

lemma naiveDur_le_24 {b a : ℚ} (hb0 : 0 ≤ b) (ha1 : a ≤ 24) : naiveDur b a ≤ 24 := by
  unfold naiveDur
  split <;> linarith

lemma effDur_nonneg {b a : ℚ} (c : Bool) (hb1 : b ≤ 24) (ha0 : 0 ≤ a) :
    0 ≤ effDur c b a := by
  unfold effDur
  split
  · rename_i h
    obtain ⟨-, hab, -, hb13, ha1, -⟩ := h
    unfold naiveDur
    rw [if_pos (by linarith)]
    linarith
  · exact naiveDur_nonneg hb1 ha0

lemma effDur_le_24 {b a : ℚ} (c : Bool) (hb0 : 0 ≤ b) (ha1 : a ≤ 24) :
    effDur c b a ≤ 24 := by
  unfold effDur
  split
  · have := naiveDur_le_24 (b := b) (a := a) hb0 ha1
    linarith
  · exact naiveDur_le_24 hb0 ha1

/-- Evaluation lemma: on valid present inputs `calc_sleep_time` never errors
and returns the corrected duration (blanked by the ambiguity floor when that
mask fires) together with the correction flag. -/
lemma calc_sleep_time_eval (b a : ℚ) (hb0 : 0 ≤ b) (hb1 : b ≤ 24)
    (ha0 : 0 ≤ a) (ha1 : a ≤ 24) (c : Bool) (m : ℚ) :
    calc_sleep_time (some b) (some a) c m =
      Except.ok
        ((if floorMask m (effDur c b a) b a then none else some (effDur c b a)),
         corrFlag c b a) := by
  unfold calc_sleep_time
  have hvb : validClock (some b) = true := by
    simp [validClock, hb0, hb1]
  have hva : validClock (some a) = true := by
    simp [validClock, ha0, ha1]
  rw [hvb, hva]
  simp only [not_true, if_false]
  have hok : ¬ ¬ (0 ≤ effDur c b a ∧ effDur c b a ≤ 24) := by
    push_neg
    exact ⟨effDur_nonneg c hb1 ha0, effDur_le_24 c hb0 ha1⟩
  rw [if_neg hok]
  by_cases hm : floorMask m (effDur c b a) b a
  · rw [if_pos hm, if_pos hm]
  · rw [if_neg hm, if_neg hm]

/-- Claim C4: for every pair of valid non-missing clock times, with
`correct_12` disabled (and the default ambiguity floor 0) `calc_sleep_time`
succeeds and the duration lies in [0, 24]; equal endpoints give exactly 0. -/
theorem C4_interval_bounds (b a : ℚ) (hb0 : 0 ≤ b) (hb1 : b ≤ 24)
    (ha0 : 0 ≤ a) (ha1 : a ≤ 24) :
    calc_sleep_time (some b) (some a) false 0 =
      Except.ok (some (naiveDur b a), none) ∧
    0 ≤ naiveDur b a ∧ naiveDur b a ≤ 24 ∧ (a = b → naiveDur b a = 0) := by
  have h := calc_sleep_time_eval b a hb0 hb1 ha0 ha1 false 0
  have hnc : ¬ corr12Mask false b a := by
    intro hk
    exact Bool.false_ne_true hk.1
  have heff : effDur false b a = naiveDur b a := by
    unfold effDur
    rw [if_neg hnc]
  have hflag : corrFlag false b a = none := by
    unfold corrFlag
    rw [if_neg hnc]
  rw [heff, hflag, if_neg (by intro hk; exact hk.1 rfl)] at h
  refine ⟨h, naiveDur_nonneg hb1 ha0, naiveDur_le_24 hb0 ha1, ?_⟩
  intro hab
  unfold naiveDur
  rw [hab, if_neg (by simp)]
  ring

/-- Witness for C4 at bed time 22:30 and awake time 07:15 (duration 8.75 h). -/
theorem C4_interval_bounds_witness :
    calc_sleep_time (some (45/2)) (some (29/4)) false 0 =
      Except.ok (some (naiveDur (45/2) (29/4)), none) ∧
    0 ≤ naiveDur (45/2) (29/4) ∧ naiveDur (45/2) (29/4) ≤ 24 ∧
    ((29/4 : ℚ) = 45/2 → naiveDur (45/2) (29/4) = 0) :=
  C4_interval_bounds (45/2) (29/4) (by norm_num) (by norm_num) (by norm_num) (by norm_num)

/-- Claim C1 counterexample: with onset (bed) 01:00 and offset (awake) 00:50
and `correct_12` enabled, the code leaves the duration at the naive 23h50m
(143/6 h) with the correction flag NOT set, because the offset 00:50 lies
outside the [1:00, 13:00) window; the claim asserts 11h50m with the flag
set. -/
theorem C1_counterexample :
    calc_sleep_time (some 1) (some (5/6)) true 0 =
      Except.ok (some (143/6), none) ∧ (143/6 : ℚ) ≠ 71/6 := by
  have hnc : ¬ corr12Mask true 1 (5/6) := by
    intro hk
    have := hk.2.2.2.2.1
    norm_num at this
  have hnd : naiveDur 1 (5/6) = 143/6 := by
    unfold naiveDur
    rw [if_pos (by norm_num)]
    norm_num
  have heff : effDur true 1 (5/6) = 143/6 := by
    unfold effDur
    rw [if_neg hnc, hnd]
  have h := calc_sleep_time_eval 1 (5/6) (by norm_num) (by norm_num)
    (by norm_num) (by norm_num) true 0
  rw [heff] at h
  rw [if_neg (by intro hk; exact hk.1 rfl)] at h
  have hflag : corrFlag true 1 (5/6) = none := by
    unfold corrFlag
    rw [if_neg hnc]
  rw [hflag] at h
  exact ⟨h, by norm_num⟩

/-- Claim C1 (amended): with onset 01:00 and offset 00:50 the subtract-12
branch does not fire (the offset is before 1:00), so the duration stays at
the naive 23h50m and the flag is unset; in general, on valid present inputs
with `correct_12` enabled and no floor, the branch fires exactly when the
offset is less than the onset and both lie in the window [1:00, 13:00), in
which case the duration is the naive duration minus 12 and the flag is 1,
and otherwise the duration is the naive duration and the flag is unset. -/
theorem C1_amended (b a : ℚ) (hb0 : 0 ≤ b) (hb1 : b ≤ 24)
    (ha0 : 0 ≤ a) (ha1 : a ≤ 24) :
    (corr12Mask true b a ↔ a < b ∧ a < 13 ∧ b < 13 ∧ 1 ≤ a ∧ 1 ≤ b) ∧
    (corr12Mask true b a →
      calc_sleep_time (some b) (some a) true 0 =
        Except.ok (some (naiveDur b a - 12), some 1)) ∧
    (¬ corr12Mask true b a →
      calc_sleep_time (some b) (some a) true 0 =
        Except.ok (some (naiveDur b a), none)) := by
  have h := calc_sleep_time_eval b a hb0 hb1 ha0 ha1 true 0
  rw [if_neg (by intro hk; exact hk.1 rfl)] at h
  refine ⟨?_, ?_, ?_⟩
  · unfold corr12Mask
    constructor
    · intro hk
      exact hk.2
    · intro hk
      exact ⟨rfl, hk⟩
  · intro hc
    rw [h]
    unfold effDur corrFlag
    rw [if_pos hc, if_pos hc]
  · intro hc
    rw [h]
    unfold effDur corrFlag
    rw [if_neg hc, if_neg hc]

/-- Witness for the amended C1: at onset 01:00, offset 00:50 the branch does
not fire and the duration is 23h50m; at onset 02:00, offset 01:50 it fires
and the duration is 11h50m with flag 1. -/
theorem C1_amended_witness :
    calc_sleep_time (some 1) (some (5/6)) true 0 = Except.ok (some (143/6), none) ∧
    calc_sleep_time (some 2) (some (11/6)) true 0 = Except.ok (some (71/6), some 1) := by
  constructor
  · have h := (C1_amended 1 (5/6) (by norm_num) (by norm_num) (by norm_num) (by norm_num)).2.2
    have hnc : ¬ corr12Mask true 1 (5/6) := by
      intro hk
      have := hk.2.2.2.2.1
      norm_num at this
    have hnd : naiveDur 1 (5/6) = 143/6 := by
      unfold naiveDur
      rw [if_pos (by norm_num)]
      norm_num
    rw [hnd] at h
    exact h hnc
  · have h := (C1_amended 2 (11/6) (by norm_num) (by norm_num) (by norm_num) (by norm_num)).2.1
    have hc : corr12Mask true 2 (11/6) := by
      unfold corr12Mask
      norm_num
    have hnd : naiveDur 2 (11/6) = 143/6 := by
      unfold naiveDur
      rw [if_pos (by norm_num)]
      norm_num
    rw [hnd] at h
    have h2 := h hc
    rw [h2]
    norm_num

/-- Claim C2 counterexample: with onset (bed) 23:50 and offset (awake) 00:10
and `min_12 = 2`, the ambiguity-floor mask does not fire (the onset is not
before 13:00 and the offset is before 1:00), so the duration stays at the
naive 20 minutes (1/3 h) instead of being set to missing as the claim
asserts; this holds with `correct_12` either way. -/
theorem C2_counterexample :
    calc_sleep_time (some (143/6)) (some (1/6)) false 2 =
      Except.ok (some (1/3), none) ∧
    calc_sleep_time (some (143/6)) (some (1/6)) true 2 =
      Except.ok (some (1/3), none) := by
  have hnd : naiveDur (143/6) (1/6) = 1/3 := by
    unfold naiveDur
    rw [if_pos (by norm_num)]
    norm_num
  constructor
  · have hnc : ¬ corr12Mask false (143/6) (1/6) := by
      intro hk
      exact Bool.false_ne_true hk.1
    have heff : effDur false (143/6) (1/6) = 1/3 := by
      unfold effDur
      rw [if_neg hnc, hnd]
    have h := calc_sleep_time_eval (143/6) (1/6) (by norm_num) (by norm_num)
      (by norm_num) (by norm_num) false 2
    rw [heff] at h
    rw [if_neg (by intro hk; have := hk.2.2.2.1; norm_num at this)] at h
    have hflag : corrFlag false (143/6) (1/6) = none := by
      unfold corrFlag
      rw [if_neg hnc]
    rw [hflag] at h
    exact h
  · have hnc : ¬ corr12Mask true (143/6) (1/6) := by
      intro hk
      have := hk.2.2.2.1
      norm_num at this
    have heff : effDur true (143/6) (1/6) = 1/3 := by
      unfold effDur
      rw [if_neg hnc, hnd]
    have h := calc_sleep_time_eval (143/6) (1/6) (by norm_num) (by norm_num)
      (by norm_num) (by norm_num) true 2
    rw [heff] at h
    rw [if_neg (by intro hk; have := hk.2.2.2.1; norm_num at this)] at h
    have hflag : corrFlag true (143/6) (1/6) = none := by
      unfold corrFlag
      rw [if_neg hnc]
    rw [hflag] at h
    exact h

/-- Claim C2 (amended): at onset 23:50, offset 00:10 the duration is kept
because the endpoints are outside the [1:00, 13:00) window; on valid present
inputs with a nonzero floor, the duration is blanked to missing exactly when
the (corrected) duration is under the floor and both endpoints lie in the
window. -/
theorem C2_amended (b a : ℚ) (hb0 : 0 ≤ b) (hb1 : b ≤ 24)
    (ha0 : 0 ≤ a) (ha1 : a ≤ 24) (c : Bool) (m : ℚ) (hm : m ≠ 0) :
    (calc_sleep_time (some b) (some a) c m = Except.ok (none, corrFlag c b a)
      ↔ (effDur c b a < m ∧ a < 13 ∧ b < 13 ∧ 1 ≤ a ∧ 1 ≤ b)) := by
  have h := calc_sleep_time_eval b a hb0 hb1 ha0 ha1 c m
  constructor
  · intro heq
    by_contra hk
    rw [if_neg (by intro hj; exact hk ⟨hj.2.1, hj.2.2⟩)] at h
    rw [heq] at h
    have hfst := congrArg (fun e => match e with
      | Except.ok p => p.1
      | Except.error _ => none) h
    simp at hfst
  · intro hk
    rw [if_pos ⟨hm, hk.1, hk.2⟩] at h
    exact h

/-- Witness for the amended C2: at onset 23:50, offset 00:10 with floor 2 the
duration is kept (the window fails), while at onset 11:50, offset 12:10 with
floor 2 the duration is blanked to missing. -/
theorem C2_amended_witness :
    ¬ (calc_sleep_time (some (143/6)) (some (1/6)) false 2 =
        Except.ok (none, corrFlag false (143/6) (1/6))) ∧
    calc_sleep_time (some (71/6)) (some (73/6)) false 2 =
      Except.ok (none, corrFlag false (71/6) (73/6)) := by
  constructor
  · intro heq
    have h := (C2_amended (143/6) (1/6) (by norm_num) (by norm_num)
      (by norm_num) (by norm_num) false 2 (by norm_num)).mp heq
    have := h.2.2.1
    norm_num at this
  · refine (C2_amended (71/6) (73/6) (by norm_num) (by norm_num)
      (by norm_num) (by norm_num) false 2 (by norm_num)).mpr ?_
    have hnc : ¬ corr12Mask false (71/6) (73/6) := by
      intro hk
      exact Bool.false_ne_true hk.1
    have heff : effDur false (71/6) (73/6) = 1/3 := by
      unfold effDur
      rw [if_neg hnc]
      unfold naiveDur
      rw [if_neg (by norm_num)]
      norm_num
    rw [heff]
    norm_num

/-- Truthiness of a float cell under Python `bool(...)`: NaN is truthy
(`bool(float(nan))` is True) and a number is truthy when nonzero.  This is
what `corr12.apply(bool)` computes in `calc_sleep_midpoint`. -/
def pyBool : Option ℚ → Bool
  | none => true
  | some v => decide (v ≠ 0)

/-- Round-half-to-even on rationals, the rounding used by
`pd.Timedelta.round`. -/
def roundHalfEven (q : ℚ) : ℤ :=
  if q - Int.floor q < 1/2 then Int.floor q
  else if 1/2 < q - Int.floor q then Int.floor q + 1
  else if 2 ∣ Int.floor q then Int.floor q else Int.floor q + 1

/-- Rounding a time in hours to the nearest minute (`.round(min)`). -/
def roundToMin (h : ℚ) : ℚ := (roundHalfEven (h * 60) : ℚ) / 60

/-- Embedding of `calc_sleep_midpoint` (µ11f_COVID19_Format_Clean.py, lines
133-156), one row at a time.  The corr12 series returned by
`calc_sleep_time` holds NaN at uncorrected rows, so `corr12.apply(bool)`
(`pyBool` here) is True at every row; the two circularity branches are
guarded by `~corr12` and `corr12` respectively. -/
def calc_sleep_midpoint (bed_time awake_time : Option ℚ) (correct_12 : Bool) (min_12 : ℚ) :
    Except String (Option ℚ) :=
  match calc_sleep_time bed_time awake_time correct_12 min_12 with
  | Except.error e => Except.error e
  | Except.ok (st, corr12) =>
      let c := pyBool corr12
      let m0 : Option ℚ :=
        match bed_time, st with
        | some bq, some d => some (bq + d / 2)
        | _, _ => none
      let m1 : Option ℚ :=
        match m0 with
        | some x => if 24 ≤ x ∧ c = false then some (x - 24) else some x
        | none => none
      let m2 : Option ℚ :=
        match m1 with
        | some x => if 13 ≤ x ∧ c = true then some (x - 12) else some x
        | none => none
      let m3 := Option.map roundToMin m2
      if ¬ validClock m3 then
        Except.error "AssertionError: midpoint must be a valid clock time"
      else
        Except.ok m3

/-- Claim C3 (code bug): for onset 23:00 with awake time 03:00 (duration 4 h,
12-hour correction not applicable) the code returns a midpoint of 13:00, not
the expected 01:00.  The uncorrected rows of the corr12 series are NaN, and
Python `bool(NaN)` is True, so after `corr12.apply(bool)` every row counts as
corrected: the subtract-24 wrap branch (guarded by `~corr12`) is unreachable
and the subtract-12 branch fires on the naive midpoint 25:00. -/
theorem C3_midpoint_bug :
    calc_sleep_midpoint (some 23) (some 3) true 2 = Except.ok (some 13) ∧
    (13 : ℚ) ≠ 1 := by
  have hnc : ¬ corr12Mask true 23 3 := by
    intro hk
    have := hk.2.2.2.1
    norm_num at this
  have heff : effDur true 23 3 = 4 := by
    unfold effDur
    rw [if_neg hnc]
    unfold naiveDur
    rw [if_pos (by norm_num)]
    norm_num
  have hflag : corrFlag true 23 3 = none := by
    unfold corrFlag
    rw [if_neg hnc]
  have h1 : calc_sleep_time (some 23) (some 3) true 2 = Except.ok (some 4, none) := by
    have h := calc_sleep_time_eval 23 3 (by norm_num) (by norm_num)
      (by norm_num) (by norm_num) true 2
    rw [heff, hflag] at h
    rw [if_neg (by intro hk; have := hk.2.1; norm_num at this)] at h
    exact h
  have hr : roundToMin (13 : ℚ) = 13 := by
    unfold roundToMin roundHalfEven
    norm_num
  constructor
  · unfold calc_sleep_midpoint
    rw [h1]
    simp only [pyBool]
    norm_num [hr, validClock]
  · norm_num

/-- Value of the sleep-efficiency column: a float cell, which the division
`TST / TIB` can make NaN (missing operand or 0/0), +inf (positive / 0) or
-inf (negative / 0). -/
inductive SEVal where
  | nan : SEVal
  | posInf : SEVal
  | negInf : SEVal
  | val : ℚ → SEVal
deriving DecidableEq

/-- Elementwise pandas float division of two finite-or-NaN columns. -/
def pandasDiv : Option ℚ → Option ℚ → SEVal
  | some a, some b =>
      if b = 0 then
        (if 0 < a then SEVal.posInf else if a < 0 then SEVal.negInf else SEVal.nan)
      else SEVal.val (a / b)
  | _, _ => SEVal.nan

/-- The comparison `SE > 1` on a float cell: True for +inf and for finite
values above 1, False for NaN and -inf. -/
def seGtOne : SEVal → Bool
  | SEVal.posInf => true
  | SEVal.val v => decide (1 < v)
  | _ => false

/-- The four derived sleep columns of one row of the daily data. -/
structure SleepVars where
  se : SEVal
  tst : Option ℚ
  tib : Option ℚ
  sleepattempt : Option ℚ
deriving DecidableEq

/-- The all-missing row written by
`data.loc[idx, [SE, TST, TIB, sleepattempt]] = np.nan`. -/
def blankRow : SleepVars := ⟨SEVal.nan, none, none, none⟩

/-- Embedding of µ11f_COVID19_Format_Clean.py lines 1321-1327: compute
`SE = TST / TIB`, then blank all four derived columns where `SE > 1`, then
blank all four where the (current) `TIB == 0`. -/
def cleanSleepVars (tst tib sleepattempt : Option ℚ) : SleepVars :=
  let se := pandasDiv tst tib
  let s1 : SleepVars := if seGtOne se then blankRow else ⟨se, tst, tib, sleepattempt⟩
  if s1.tib = some 0 then blankRow else s1

/-- Claim C10: whenever the computed sleep efficiency exceeds 1 or TIB is 0,
all four derived columns SE, TST, TIB, sleepattempt are blanked together;
consequently every surviving finite SE is at most 1 and no surviving
non-missing SE coexists with TIB = 0. -/
theorem C10_SE_invalidation (tst tib sleepattempt : Option ℚ) :
    ((seGtOne (pandasDiv tst tib) = true ∨ tib = some 0) →
        cleanSleepVars tst tib sleepattempt = blankRow) ∧
    (∀ v : ℚ, (cleanSleepVars tst tib sleepattempt).se = SEVal.val v →
        v ≤ 1 ∧ (cleanSleepVars tst tib sleepattempt).tib ≠ some 0) ∧
    ((cleanSleepVars tst tib sleepattempt).se ≠ SEVal.nan →
        (cleanSleepVars tst tib sleepattempt).tib ≠ some 0) := by
  by_cases hg : seGtOne (pandasDiv tst tib) = true
  · have hres : cleanSleepVars tst tib sleepattempt = blankRow := by
      simp only [cleanSleepVars]
      rw [if_pos hg]
      rw [if_neg (by simp [blankRow])]
    refine ⟨fun _ => hres, ?_, ?_⟩
    · intro v hv
      rw [hres] at hv
      simp [blankRow] at hv
    · intro hv
      rw [hres] at hv
      simp [blankRow] at hv
  · by_cases ht : tib = some 0
    · have hres : cleanSleepVars tst tib sleepattempt = blankRow := by
        simp only [cleanSleepVars]
        rw [if_neg hg]
        simp only
        rw [if_pos ht]
      refine ⟨fun _ => hres, ?_, ?_⟩
      · intro v hv
        rw [hres] at hv
        simp [blankRow] at hv
      · intro hv
        rw [hres] at hv
        simp [blankRow] at hv
    · have hres : cleanSleepVars tst tib sleepattempt =
          ⟨pandasDiv tst tib, tst, tib, sleepattempt⟩ := by
        simp only [cleanSleepVars]
        rw [if_neg hg]
        simp only
        rw [if_neg ht]
      refine ⟨?_, ?_, ?_⟩
      · intro hk
        rcases hk with hk | hk
        · exact absurd hk hg
        · exact absurd hk ht
      · intro v hv
        rw [hres] at hv
        simp only at hv
        constructor
        · by_contra hlt
          push_neg at hlt
          apply hg
          rw [hv]
          simp [seGtOne, hlt]
        · rw [hres]
          simpa using ht
      · intro _
        rw [hres]
        simpa using ht

/-- Witness for C10 at TST = 9, TIB = 8, sleepattempt = 9: SE = 9/8 exceeds
1, so the row is blanked. -/
theorem C10_SE_invalidation_witness :
    cleanSleepVars (some 9) (some 8) (some 9) = blankRow := by
  refine (C10_SE_invalidation (some 9) (some 8) (some 9)).1 (Or.inl ?_)
  simp only [pandasDiv]
  rw [if_neg (by norm_num)]
  simp only [seGtOne]
  norm_num

/-- Embedding of µ11f_COVID19_Format_Clean.py line 656:
`data.loc[data[alcohol_bev] > 48, alcohol_bev] = np.nan` (the comparison is
False at a NaN cell, which is therefore left missing). -/
def clean_alcohol_bev (v : Option ℚ) : Option ℚ :=
  match v with
  | some x => if 48 < x then none else some x
  | none => none

/-- Claim C8 counterexample: a reported 30 alcoholic drinks per day exceeds
24, yet the code keeps it (the blanking threshold in the code is 48, not
24), contradicting the claim that any value above 24 is set to missing. -/
theorem C8_counterexample :
    clean_alcohol_bev (some 30) = some 30 ∧ (24 : ℚ) < 30 := by
  constructor
  · simp only [clean_alcohol_bev]
    rw [if_neg (by norm_num)]
  · norm_num

/-- Claim C8 (amended): reported alcoholic drinks above 48 per day (not 24)
are set to missing, values up to 48 are kept, and a missing value stays
missing; the replacement is non-fatal (the function is total and never
errors). -/
theorem C8_amended (x : ℚ) :
    (48 < x → clean_alcohol_bev (some x) = none) ∧
    (x ≤ 48 → clean_alcohol_bev (some x) = some x) ∧
    clean_alcohol_bev none = none := by
  refine ⟨?_, ?_, rfl⟩
  · intro h
    simp only [clean_alcohol_bev]
    rw [if_pos h]
  · intro h
    simp only [clean_alcohol_bev]
    rw [if_neg (not_lt.mpr h)]

/-- Witness for the amended C8: 50 drinks are blanked, 30 are kept. -/
theorem C8_amended_witness :
    clean_alcohol_bev (some 50) = none ∧ clean_alcohol_bev (some 30) = some 30 :=
  ⟨(C8_amended 50).1 (by norm_num), (C8_amended 30).2.1 (by norm_num)⟩

/-- Row sum of a list of float cells with `skipna=False`: missing as soon as
one entry is missing, the plain sum otherwise. -/
def sumSkipnaFalse : List (Option ℚ) → Option ℚ
  | [] => some 0
  | x :: rest => Option.bind x (fun a => Option.map (fun s => a + s) (sumSkipnaFalse rest))

/-- Embedding of the PANAS positive-affect composite (µ11f line 1341):
`data[panas_pa_vars].sum(axis=1, skipna=False)`, where `items` lists the row
values of the ten columns panas_interested3 .. panas_active3. -/
def PANAS_PA (items : List (Option ℚ)) : Option ℚ := sumSkipnaFalse items

/-- One row of the PSQI question-5 disturbance items: psqi_5b .. psqi_5i,
psqi_5j (frequency for the free-text reason) and psqi_5j2 (the free-text
reason itself). -/
structure PSQI5 where
  q5b : Option ℚ
  q5c : Option ℚ
  q5d : Option ℚ
  q5e : Option ℚ
  q5f : Option ℚ
  q5g : Option ℚ
  q5h : Option ℚ
  q5i : Option ℚ
  q5j : Option ℚ
  q5j2 : Option String

/-- Embedding of the PSQIDISTB computation (µ11f lines 1388-1395): psqi_5j
is first set to 0 wherever psqi_5j2 or psqi_5j is missing, then the columns
psqi_5b .. psqi_5j are summed with `skipna=False`, the sum is asserted to be
a whole number, banded (1-9 to 1, 10-18 to 2, above 18 to 3) and asserted to
land in 0-3 or missing. -/
def PSQIDISTB (r : PSQI5) : Except String (Option ℚ) :=
  let j : Option ℚ := if r.q5j2 = none ∨ r.q5j = none then some 0 else r.q5j
  match sumSkipnaFalse [r.q5b, r.q5c, r.q5d, r.q5e, r.q5f, r.q5g, r.q5h, r.q5i, j] with
  | none => Except.ok none
  | some v =>
      if v.den ≠ 1 then
        Except.error "AssertionError: PSQIDISTB entries must be whole numbers"
      else
        let w : ℚ := if 1 ≤ v ∧ v ≤ 9 then 1
          else if 10 ≤ v ∧ v ≤ 18 then 2
          else if 18 < v then 3 else v
        if w = 0 ∨ w = 1 ∨ w = 2 ∨ w = 3 then Except.ok (some w)
        else Except.error "AssertionError: PSQIDISTB must be 0 to 3 or missing"

/-- Claim C9 counterexample: a record whose items psqi_5b .. psqi_5i are all
0 (present) but whose contributing item psqi_5j is missing gets the
non-missing composite PSQIDISTB = 0: the code zero-imputes psqi_5j before
summing, contradicting the claim that a missing contributing item always
yields a missing composite for every summed scale. -/
theorem C9_counterexample :
    PSQIDISTB ⟨some 0, some 0, some 0, some 0, some 0, some 0, some 0, some 0,
        none, some "snoring"⟩ = Except.ok (some 0) := by
  have hs : sumSkipnaFalse [some 0, some 0, some 0, some 0, some 0, some 0, some 0,
      some 0, some 0] = some 0 := by
    simp [sumSkipnaFalse]
  simp only [PSQIDISTB]
  norm_num
  rw [hs]
  have hden : ((0 : ℚ).den = 1) := rfl
  norm_num [hden]

lemma sumSkipnaFalse_eq_none_of_mem {l : List (Option ℚ)} (h : none ∈ l) :
    sumSkipnaFalse l = none := by
  induction l with
  | nil => cases h
  | cons x rest ih =>
    rcases List.mem_cons.mp h with hx | hr
    · simp [sumSkipnaFalse, ← hx]
    · simp [sumSkipnaFalse, ih hr]

/-- Claim C9 (amended): every summed composite uses `skipna=False`, so a
missing item that is still missing at summation time makes the composite
missing — in particular any missing PANAS positive-affect item gives a
missing PANAS_PA, and a missing psqi_5b .. psqi_5i item gives a missing
PSQIDISTB; the one exception is the final item psqi_5j of PSQIDISTB, which
is zero-imputed (together with a missing psqi_5j2) before the sum. -/
theorem C9_amended :
    (∀ items : List (Option ℚ), none ∈ items → PANAS_PA items = none) ∧
    (∀ r : PSQI5,
      (r.q5b = none ∨ r.q5c = none ∨ r.q5d = none ∨ r.q5e = none ∨
       r.q5f = none ∨ r.q5g = none ∨ r.q5h = none ∨ r.q5i = none) →
      PSQIDISTB r = Except.ok none) := by
  constructor
  · intro items h
    exact sumSkipnaFalse_eq_none_of_mem h
  · intro r h
    have hs : sumSkipnaFalse [r.q5b, r.q5c, r.q5d, r.q5e, r.q5f, r.q5g, r.q5h, r.q5i,
        (if r.q5j2 = none ∨ r.q5j = none then some 0 else r.q5j)] = none := by
      apply sumSkipnaFalse_eq_none_of_mem
      rcases h with h | h | h | h | h | h | h | h <;> rw [← h] <;> simp
    simp only [PSQIDISTB]
    rw [hs]

/-- Witness for the amended C9: one missing PANAS item gives a missing
total, and a missing psqi_5c gives a missing PSQIDISTB. -/
theorem C9_amended_witness :
    PANAS_PA [some 1, some 2, none, some 1, some 1, some 1, some 1, some 1,
      some 1, some 1] = none ∧
    PSQIDISTB ⟨some 0, none, some 0, some 0, some 0, some 0, some 0, some 0,
      some 1, some "noise"⟩ = Except.ok none :=
  ⟨C9_amended.1 _ (by simp),
   C9_amended.2 _ (Or.inr (Or.inl rfl))⟩

/-- Leading- and trailing-whitespace removal on the character list of a
string (`str.strip()`). -/
def trimChars (l : List Char) : List Char :=
  ((l.dropWhile Char.isWhitespace).reverse.dropWhile Char.isWhitespace).reverse

/-- Identifier normalization applied first to every raw subject-ID column:
`.astype(str).str.strip().str.upper()`. -/
def normalizeId (s : String) : String :=
  String.mk ((trimChars s.data).map Char.toUpper)

/-- Removal of the zero-width space from a subject ID:
`.str.replace(u200b, empty)`. -/
def stripZWSP (s : String) : String :=
  String.mk (s.data.filter (fun ch => decide (ch ≠ '​')))

/-- First-match association-list lookup (a Python dict built from unique
keys behaves the same). -/
def lookupAssoc : List (String × String) → String → Option String
  | [], _ => none
  | p :: rest, s => if p.1 = s then some p.2 else lookupAssoc rest s

/-- A pandas `Series.replace(dict)`: an identifier appearing as a key of the
corrections table is replaced by its corrected value, anything else is kept. -/
def applyCorrections (corrections : List (String × String)) (i : String) : String :=
  match lookupAssoc corrections i with
  | some c => c
  | none => i

/-- The subject-ID cleanup configuration: the hard-coded exclusion list
`excl_subs` and the corrections table loaded from SubjID_Replacements.csv. -/
structure IdCleanConfig where
  excl_subs : List String
  corrections : List (String × String)

/-- Embedding of the per-table subject-ID pipeline of the SUBJECT
CORRECTIONS AND EXCLUSIONS section (µ11f lines 245-314), in source order:
normalize (strip + uppercase), THEN drop identifiers in `excl_subs`, THEN
strip zero-width spaces, THEN apply the corrections table.  The exclusion
filter therefore sees raw normalized identifiers, not corrected ones. -/
def reconcileIds (cfg : IdCleanConfig) (t : List String) : List String :=
  (((t.map normalizeId).filter (fun i => decide (i ∉ cfg.excl_subs))).map stripZWSP).map
    (applyCorrections cfg.corrections)

/-- Claim C5 counterexample: with exclusion list [54DLL] and a correction
sending AA to the excluded identifier 54DLL, the raw row AA survives the
exclusion step (its uncorrected identifier is not excluded) and ends the
pipeline bearing the excluded identifier 54DLL — it is not dropped, contrary
to the claim that corrections are applied before the exclusion filter. -/
theorem C5_counterexample :
    reconcileIds ⟨["54DLL"], [("AA", "54DLL")]⟩ ["AA"] = ["54DLL"] := by
  decide

/-- Claim C5 (amended): the exclusion filter runs before the corrections
map, so a row survives the exclusion step exactly when its normalized
uncorrected identifier is not in the exclusion list: the surviving row count
equals the count of rows whose normalized raw identifier is not excluded,
and every such row reaches the output as its corrected (and
zero-width-space-stripped) identifier, even when that corrected identifier
is itself in the exclusion list. -/
theorem C5_amended (cfg : IdCleanConfig) (t : List String) :
    (reconcileIds cfg t).length =
      (t.map normalizeId).countP (fun i => decide (i ∉ cfg.excl_subs)) ∧
    (∀ i ∈ t, normalizeId i ∉ cfg.excl_subs →
      applyCorrections cfg.corrections (stripZWSP (normalizeId i)) ∈ reconcileIds cfg t) := by
  constructor
  · simp [reconcileIds, List.countP_eq_length_filter]
  · intro i hi hni
    refine List.mem_map.mpr ⟨stripZWSP (normalizeId i), ?_, rfl⟩
    refine List.mem_map.mpr ⟨normalizeId i, ?_, rfl⟩
    refine List.mem_filter.mpr ⟨List.mem_map_of_mem normalizeId hi, ?_⟩
    exact decide_eq_true hni

/-- Witness for the amended C5: with the corrections map sending AA onto the
excluded 54DLL, the row count matches and the corrected identifier of the
surviving raw row AA is in the output. -/
theorem C5_amended_witness :
    (reconcileIds ⟨["54DLL"], [("AA", "54DLL")]⟩ ["AA", "54DLL"]).length =
      ((["AA", "54DLL"].map normalizeId).countP
        (fun i => decide (i ∉ (["54DLL"] : List String)))) ∧
    applyCorrections [("AA", "54DLL")] (stripZWSP (normalizeId "AA")) ∈
      reconcileIds ⟨["54DLL"], [("AA", "54DLL")]⟩ ["AA", "54DLL"] := by
  constructor
  · exact (C5_amended ⟨["54DLL"], [("AA", "54DLL")]⟩ ["AA", "54DLL"]).1
  · exact (C5_amended ⟨["54DLL"], [("AA", "54DLL")]⟩ ["AA", "54DLL"]).2
      "AA" (by decide) (by decide)

/-- First-match association-list lookup into the roster. -/
def lookupNum : List (String × Int) → String → Option Int
  | [], _ => none
  | p :: rest, s => if p.1 = s then some p.2 else lookupNum rest s

/-- The normalized roster, as built from IDs_For_DEID_Data.csv:
`sub_num_key[sub_id] = sub_num_key[sub_id].astype(str).str.strip().str.upper()`. -/
def rosterKey (roster : List (String × Int)) : List (String × Int) :=
  roster.map (fun p => (normalizeId p.1, p.2))

/-- Embedding of the canonical-ID assignment (µ11f lines 367-405): assert no
duplicated sub_id and no duplicated sub_num in the roster, assert every
remaining identifier of every table is a roster key, then map identifiers to
their canonical integer IDs.  `duplicated(keep=False).any()` is the negation
of `Nodup`. -/
def sub_num_key_check (roster : List (String × Int)) (tables : List (List String)) :
    Except String (List (List Int)) :=
  let key := rosterKey roster
  if ¬ ((key.map Prod.fst).Nodup) then
    Except.error "AssertionError: duplicated sub_id in roster"
  else if ¬ ((key.map Prod.snd).Nodup) then
    Except.error "AssertionError: duplicated sub_num in roster"
  else if ¬ (tables.all (fun t => t.all (fun i => (lookupNum key i).isSome))) then
    Except.error "AssertionError: identifier not in roster key domain"
  else
    Except.ok (tables.map (fun t => t.map (fun i => (lookupNum key i).getD 0)))

lemma lookupNum_mem_snd {l : List (String × Int)} {s : String} {n : Int}
    (h : lookupNum l s = some n) : n ∈ l.map Prod.snd := by
  induction l with
  | nil => simp [lookupNum] at h
  | cons p rest ih =>
    by_cases hp : p.1 = s
    · simp only [lookupNum] at h
      rw [if_pos hp] at h
      simp at h
      simp [← h]
    · simp only [lookupNum] at h
      rw [if_neg hp] at h
      simp [ih h]

lemma lookupNum_inj {l : List (String × Int)} (hnd : (l.map Prod.snd).Nodup)
    {s₁ s₂ : String} {n : Int}
    (h₁ : lookupNum l s₁ = some n) (h₂ : lookupNum l s₂ = some n) : s₁ = s₂ := by
  induction l with
  | nil => simp [lookupNum] at h₁
  | cons p rest ih =>
    rw [List.map_cons, List.nodup_cons] at hnd
    by_cases hp1 : p.1 = s₁
    · by_cases hp2 : p.1 = s₂
      · rw [← hp1, ← hp2]
      · simp only [lookupNum] at h₁ h₂
        rw [if_pos hp1] at h₁
        rw [if_neg hp2] at h₂
        simp at h₁
        rw [← h₁] at h₂
        exact absurd (lookupNum_mem_snd h₂) hnd.1
    · by_cases hp2 : p.1 = s₂
      · simp only [lookupNum] at h₁ h₂
        rw [if_neg hp1] at h₁
        rw [if_pos hp2] at h₂
        simp at h₂
        rw [← h₂] at h₁
        exact absurd (lookupNum_mem_snd h₁) hnd.1
      · simp only [lookupNum] at h₁ h₂
        rw [if_neg hp1] at h₁
        rw [if_neg hp2] at h₂
        exact ih hnd.2 h₁ h₂

/-- Claim C6: the canonical-ID assignment succeeds exactly when the roster
has no duplicate normalized identifiers, no duplicate canonical IDs, and
every remaining identifier of every table is in the roster key domain (any
violation is a fatal assertion error instead of a silently wrong mapping);
and on success the identifier-to-ID mapping is injective: two identifiers
that are assigned the same canonical ID are equal. -/
theorem C6_roster_injective (roster : List (String × Int)) (tables : List (List String)) :
    ((∃ out, sub_num_key_check roster tables = Except.ok out) ↔
      (((rosterKey roster).map Prod.fst).Nodup ∧
       ((rosterKey roster).map Prod.snd).Nodup ∧
       ∀ t ∈ tables, ∀ i ∈ t, (lookupNum (rosterKey roster) i).isSome = true)) ∧
    (∀ out, sub_num_key_check roster tables = Except.ok out →
      ∀ i₁ i₂ : String, ∀ n : Int,
        lookupNum (rosterKey roster) i₁ = some n →
        lookupNum (rosterKey roster) i₂ = some n → i₁ = i₂) := by
  by_cases h1 : ((rosterKey roster).map Prod.fst).Nodup
  · by_cases h2 : ((rosterKey roster).map Prod.snd).Nodup
    · by_cases h3 : tables.all (fun t => t.all (fun i => (lookupNum (rosterKey roster) i).isSome))
      · have hok : sub_num_key_check roster tables =
            Except.ok (tables.map (fun t => t.map
              (fun i => (lookupNum (rosterKey roster) i).getD 0))) := by
          simp only [sub_num_key_check]
          rw [if_neg (not_not_intro h1), if_neg (not_not_intro h2), if_neg (not_not_intro h3)]
        constructor
        · constructor
          · intro _
            refine ⟨h1, h2, ?_⟩
            intro t ht i hi
            have := List.all_eq_true.mp h3 t ht
            exact List.all_eq_true.mp this i hi
          · intro _
            exact ⟨_, hok⟩
        · intro out _ i₁ i₂ n hn1 hn2
          exact lookupNum_inj h2 hn1 hn2
      · have herr : sub_num_key_check roster tables =
            Except.error "AssertionError: identifier not in roster key domain" := by
          simp only [sub_num_key_check]
          rw [if_neg (not_not_intro h1), if_neg (not_not_intro h2), if_pos h3]
        constructor
        · constructor
          · intro hex
            obtain ⟨out, hout⟩ := hex
            rw [herr] at hout
            cases hout
          · intro hcond
            exfalso
            apply h3
            rw [List.all_eq_true]
            intro t ht
            rw [List.all_eq_true]
            intro i hi
            exact hcond.2.2 t ht i hi
        · intro out hout
          rw [herr] at hout
          cases hout
    · have herr : sub_num_key_check roster tables =
          Except.error "AssertionError: duplicated sub_num in roster" := by
        simp only [sub_num_key_check]
        rw [if_neg (not_not_intro h1), if_pos h2]
      constructor
      · constructor
        · intro hex
          obtain ⟨out, hout⟩ := hex
          rw [herr] at hout
          cases hout
        · intro hcond
          exact absurd hcond.2.1 h2
      · intro out hout
        rw [herr] at hout
        cases hout
  · have herr : sub_num_key_check roster tables =
        Except.error "AssertionError: duplicated sub_id in roster" := by
      simp only [sub_num_key_check]
      rw [if_pos h1]
    constructor
    · constructor
      · intro hex
        obtain ⟨out, hout⟩ := hex
        rw [herr] at hout
        cases hout
      · intro hcond
        exact absurd hcond.1 h1
    · intro out hout
      rw [herr] at hout
      cases hout

/-- Witness for C6 on a concrete roster and tables: the check succeeds and
the mapping applied at identifier A is injective at ID 1. -/
theorem C6_roster_injective_witness :
    (∃ out, sub_num_key_check [("a", 1), ("b", 2)] [["A"], ["B", "A"]] = Except.ok out) ∧
    ("A" : String) = "A" := by
  constructor
  · exact (C6_roster_injective [("a", 1), ("b", 2)] [["A"], ["B", "A"]]).1.mpr (by decide)
  · exact (C6_roster_injective [("a", 1), ("b", 2)] [["A"], ["B", "A"]]).2
      [[1], [2, 1]] (by rfl) "A" "A" 1 (by rfl) (by rfl)

/-- The scan behind `drop_duplicates(sub_id, keep=first)`: keep a row when
its sub_id has not been seen yet. -/
def dropDupAux : List (Int × Nat) → List Int → List (Int × Nat)
  | [], _ => []
  | r :: rest, seen =>
      if r.1 ∈ seen then dropDupAux rest seen
      else r :: dropDupAux rest (r.1 :: seen)

/-- Embedding of `rN.drop_duplicates(sub_id, keep=first)` (µ11f lines
577-585) on a table of (sub_id, payload) rows. -/
def drop_duplicates_keep_first (t : List (Int × Nat)) : List (Int × Nat) :=
  dropDupAux t []

lemma dropDupAux_filter (t : List (Int × Nat)) :
    ∀ (seen : List Int) (k : Int),
      (dropDupAux t seen).filter (fun r => decide (r.1 = k)) =
        if k ∈ seen then [] else (t.filter (fun r => decide (r.1 = k))).take 1 := by
  induction t with
  | nil =>
    intro seen k
    simp only [dropDupAux, List.filter_nil, List.take_nil]
    split <;> rfl
  | cons r rest ih =>
    intro seen k
    by_cases hseen : r.1 ∈ seen
    · simp only [dropDupAux]
      rw [if_pos hseen, ih seen k]
      by_cases hk : k ∈ seen
      · rw [if_pos hk, if_pos hk]
      · have hrk : ¬ (r.1 = k) := by
          intro he
          rw [he] at hseen
          exact hk hseen
        rw [if_neg hk, if_neg hk]
        rw [List.filter_cons]
        rw [if_neg (by simpa using hrk)]
    · simp only [dropDupAux]
      rw [if_neg hseen]
      by_cases hrk : r.1 = k
      · rw [List.filter_cons, if_pos (by simpa using hrk)]
        rw [ih (r.1 :: seen) k]
        rw [if_pos (by rw [← hrk]; exact List.mem_cons_self _ _)]
        have hk : ¬ k ∈ seen := by
          rw [← hrk]
          exact hseen
        rw [if_neg hk]
        rw [List.filter_cons, if_pos (by simpa using hrk)]
        rfl
      · rw [List.filter_cons, if_neg (by simpa using hrk)]
        rw [ih (r.1 :: seen) k]
        by_cases hk : k ∈ seen
        · rw [if_pos (List.mem_cons_of_mem _ hk), if_pos hk]
        · have hknot : ¬ k ∈ r.1 :: seen := by
            intro hc
            rcases List.mem_cons.mp hc with hc | hc
            · exact hrk hc.symm
            · exact hk hc
          rw [if_neg hknot, if_neg hk]
          rw [List.filter_cons, if_neg (by simpa using hrk)]

lemma dropDupAux_nodup (t : List (Int × Nat)) :
    ∀ seen : List Int, ((dropDupAux t seen).map Prod.fst).Nodup ∧
      ∀ k ∈ (dropDupAux t seen).map Prod.fst, k ∉ seen := by
  induction t with
  | nil =>
    intro seen
    simp [dropDupAux]
  | cons r rest ih =>
    intro seen
    by_cases hseen : r.1 ∈ seen
    · simp only [dropDupAux]
      rw [if_pos hseen]
      exact ih seen
    · simp only [dropDupAux]
      rw [if_neg hseen]
      obtain ⟨ihnd, ihmem⟩ := ih (r.1 :: seen)
      constructor
      · rw [List.map_cons, List.nodup_cons]
        refine ⟨?_, ihnd⟩
        intro hc
        exact (ihmem r.1 hc) (List.mem_cons_self _ _)
      · intro k hk
        rw [List.map_cons, List.mem_cons] at hk
        rcases hk with hk | hk
        · rw [hk]
          exact hseen
        · intro hc
          exact (ihmem k hk) (List.mem_cons_of_mem _ hc)

/-- One daily-data row: canonical subject ID, todays_date and
redcap_timestamp, both timestamps in fractional days. -/
structure DRow where
  sub : Int
  tdate : ℚ
  ts : ℚ
deriving DecidableEq

/-- `dt.normalize()`: truncate a timestamp to its calendar day. -/
def dayFloor (q : ℚ) : ℤ := Int.floor q

/-- A row is a subject-date duplicate when its (sub_id, normalized
todays_date) pair occurs in at least two rows; `duplicated(keep=False)`
marks exactly those rows (`sub_date_duplicates`, µ11f lines 74-83). -/
def subDateDup (rows : List DRow) (r : DRow) : Prop :=
  2 ≤ rows.countP (fun s => decide (s.sub = r.sub ∧ dayFloor s.tdate = dayFloor r.tdate))

instance (rows : List DRow) (r : DRow) : Decidable (subDateDup rows r) := by
  unfold subDateDup; infer_instance

/-- The problem mask of the REFERENCE DATE section (µ11f lines 664-667):
subject-date duplicates, or todays_date and redcap_timestamp more than one
day apart. -/
def probFlag (rows : List DRow) (r : DRow) : Bool :=
  decide (subDateDup rows r) || decide (1 < |r.tdate - r.ts|)

/-- Embedding of the REFERENCE DATE section (µ11f lines 662-677): flagged
rows are written to the ref_date_problems list; rows without problems get
`ref_date = todays_date - 1 day` (one more day subtracted when todays_date
has a time of day at or before 04:00), normalized to a date.  No row is
dropped: the first component keeps every row of the input in order. -/
def refDateStep (rows : List DRow) : List (DRow × Option ℤ) × List DRow :=
  ( rows.map (fun r =>
      let base : Option ℚ := if probFlag rows r then none else some (r.tdate - 1)
      let base2 : Option ℚ :=
        if r.tdate - (dayFloor r.tdate : ℚ) ≤ 4 / 24 then Option.map (fun x => x - 1) base
        else base
      (r, Option.map dayFloor base2)),
    rows.filter (fun r => probFlag rows r) )

/-- Claim C7: for the one-time (non-repeating) instrument tables,
`drop_duplicates(keep=first)` leaves at most one row per canonical subject
ID, namely the first in original order (for every key, the surviving rows
with that key are the first such row of the input); for the repeating daily
table, the reference-date step drops no row — subject-date duplicates are
only detected and collected into the diagnostic problem list. -/
theorem C7_duplicate_policy (t : List (Int × Nat)) (rows : List DRow) :
    ((drop_duplicates_keep_first t).map Prod.fst).Nodup ∧
    (∀ k : Int, (drop_duplicates_keep_first t).filter (fun r => decide (r.1 = k)) =
        (t.filter (fun r => decide (r.1 = k))).take 1) ∧
    (refDateStep rows).1.map Prod.fst = rows ∧
    (∀ r ∈ rows, subDateDup rows r → r ∈ (refDateStep rows).2) := by
  refine ⟨(dropDupAux_nodup t []).1, ?_, ?_, ?_⟩
  · intro k
    have h := dropDupAux_filter t [] k
    rw [if_neg (List.not_mem_nil k)] at h
    exact h
  · simp only [refDateStep, List.map_map]
    exact List.map_id rows
  · intro r hr hdup
    have hflag : probFlag rows r = true := by
      unfold probFlag
      rw [Bool.or_eq_true]
      left
      exact decide_eq_true hdup
    simp only [refDateStep]
    exact List.mem_filter.mpr ⟨hr, hflag⟩

/-- Witness for C7: a table with a repeated subject ID 1 keeps only its
first row, and the daily rows with a duplicated (subject, day) pair are all
kept while the duplicate row lands in the problem list. -/
theorem C7_duplicate_policy_witness :
    (drop_duplicates_keep_first [(1, 10), (1, 11), (2, 12)]).filter
        (fun r => decide (r.1 = 1)) =
      ([(1, 10), (1, 11), (2, 12)].filter (fun r => decide (r.1 = 1))).take 1 ∧
    (refDateStep [⟨1, 5, 5⟩, ⟨1, 5, 5⟩]).1.map Prod.fst = [⟨1, 5, 5⟩, ⟨1, 5, 5⟩] ∧
    (⟨1, 5, 5⟩ : DRow) ∈ (refDateStep [⟨1, 5, 5⟩, ⟨1, 5, 5⟩]).2 := by
  refine ⟨(C7_duplicate_policy [(1, 10), (1, 11), (2, 12)] []).2.1 1,
    (C7_duplicate_policy [] [⟨1, 5, 5⟩, ⟨1, 5, 5⟩]).2.2.1, ?_⟩
  exact (C7_duplicate_policy [] [⟨1, 5, 5⟩, ⟨1, 5, 5⟩]).2.2.2
    ⟨1, 5, 5⟩ (List.mem_cons_self _ _) (by decide)

end Covid19Clean
